import Mathlib

/-!
# Verification of the Revenium OpenAI middleware core

A shallow embedding, in Lean 4, of the behaviour-bearing parts of the
`revenium-middleware-openai-node` repository: the credential sanitizer, the
Azure deployment-name resolver, the payload builder, the usage tracker, the
request handlers, the streaming wrappers, the instance patcher and the
provider detector.  Each definition mirrors one source function; theorems at
the end settle the specification claims against these definitions.

Strings are modelled as `List Char` so that the text-processing functions
(regex-style scanning and replacement) are directly executable and decidable
on concrete inputs.
-/

abbrev Str := List Char

/-- Lower-case a modelled string, as `String.prototype.toLowerCase` does on
the ASCII inputs relevant here. -/
def toLowerStr (s : Str) : Str := s.map Char.toLower

/-- Does `needle` occur as a contiguous substring of `hay`?  Models a
`/literal/.test(s)` regex test or `String.includes`. -/
def containsSub (needle hay : Str) : Bool :=
  match hay with
  | [] => needle.isEmpty
  | _ :: t => needle.isPrefixOf hay || containsSub needle t

/-! ## Credential sanitizer (`src/utils/prompt-extraction.ts`)

`sanitizeCredentials` applies thirteen global regex replacements in order.
Each regex used there is a simple sequence of: a literal (possibly
case-insensitive), a greedy character-class repetition with a minimum count,
an exact-count repetition, or an optional single character.  We model that
regex fragment language exactly, with JavaScript's leftmost-match, greedy,
backtracking semantics.  A fuel argument makes the matcher structurally
recursive; the initial fuel is always ample for the finite inputs evaluated
in the theorems. -/

/-- A component of one of the sanitizer's regexes. -/
inductive RPat where
  /-- A literal string; `ci` marks a case-insensitive regex (`/i`). -/
  | lit (s : Str) (ci : Bool)
  /-- Greedy `[class]{min,}`. -/
  | cls (p : Char → Bool) (min : Nat)
  /-- Exact-count `[class]{n}`. -/
  | rep (p : Char → Bool) (n : Nat)
  /-- Greedy `[class]?`. -/
  | opt (p : Char → Bool)

/-- Case-sensitive or case-insensitive literal prefix strip. -/
def stripLit (s : Str) (ci : Bool) (cs : Str) : Option Str :=
  match s, cs with
  | [], rest => some rest
  | _ :: _, [] => none
  | a :: s', c :: cs' =>
      if (if ci then a.toLower == c.toLower else a == c) then stripLit s' ci cs'
      else none

/-- Length of the maximal run of characters satisfying `p`. -/
def runLen (p : Char → Bool) : Str → Nat
  | [] => 0
  | c :: cs => if p c then runLen p cs + 1 else 0

/-- Consume exactly `n` characters satisfying `p`. -/
def takeExact (p : Char → Bool) : Nat → Str → Option Str
  | 0, cs => some cs
  | _ + 1, [] => none
  | n + 1, c :: cs => if p c then takeExact p n cs else none

/-- Backtracking matcher for a sequence of `RPat` components at the head of
`cs`; returns the remaining suffix after the match.  Greedy repetitions try
the longest repetition count first and backtrack, as JavaScript regexes do.
`fuel` only bounds the recursion depth. -/
def matchPats (fuel : Nat) (ps : List RPat) (cs : Str) : Option Str :=
  match fuel with
  | 0 => none
  | fuel + 1 =>
    match ps with
    | [] => some cs
    | RPat.lit s ci :: ps' =>
        match stripLit s ci cs with
        | some rest => matchPats fuel ps' rest
        | none => none
    | RPat.rep p n :: ps' =>
        match takeExact p n cs with
        | some rest => matchPats fuel ps' rest
        | none => none
    | RPat.opt p :: ps' =>
        (match cs with
         | c :: rest =>
             if p c then
               match matchPats fuel ps' rest with
               | some r => some r
               | none => matchPats fuel ps' cs
             else matchPats fuel ps' cs
         | [] => matchPats fuel ps' [])
    | RPat.cls p min :: ps' =>
        tryCls fuel ps' p min (runLen p cs) cs
where
  /-- Try repetition counts `k, k-1, …, min` for a greedy `[class]{min,}`. -/
  tryCls (fuel : Nat) (ps' : List RPat) (p : Char → Bool) (min k : Nat)
      (cs : Str) : Option Str :=
    match fuel with
    | 0 => none
    | fuel + 1 =>
      if k < min then none
      else
        match matchPats fuel ps' (cs.drop k) with
        | some rest => some rest
        | none =>
          match k with
          | 0 => none
          | k + 1 => tryCls fuel ps' p min k cs

/-- One global replacement pass (`String.prototype.replace` with a `/g`
regex): scan left to right, replace each leftmost match, resume after it. -/
def replaceAllAux (ps : List RPat) (rep : Str) : Nat → Str → Str
  | 0, cs => cs
  | _ + 1, [] => []
  | fuel + 1, c :: cs' =>
      match matchPats 1000 ps (c :: cs') with
      | some rest =>
          if rest.length < (c :: cs').length then
            rep ++ replaceAllAux ps rep fuel rest
          else c :: replaceAllAux ps rep fuel cs'
      | none => c :: replaceAllAux ps rep fuel cs'

def replaceAll (ps : List RPat) (rep : Str) (cs : Str) : Str :=
  replaceAllAux ps rep cs.length cs

/-- `[a-zA-Z0-9_-]` -/
def isTokChar (c : Char) : Bool :=
  c.isAlpha || c.isDigit || c == '_' || c == '-'

/-- `[A-Z0-9]` -/
def isUpperDigit (c : Char) : Bool :=
  (c.isUpper && c.isAlpha) || c.isDigit

/-- `[a-zA-Z0-9]` -/
def isAlnumChar (c : Char) : Bool := c.isAlpha || c.isDigit

/-- `[a-zA-Z0-9_\-.+\/=]` (the Bearer-token and key-value character class) -/
def isValChar (c : Char) : Bool :=
  c.isAlpha || c.isDigit || c == '_' || c == '-' || c == '.' || c == '+' ||
  c == '/' || c == '='

/-- `["'\s:=]` (the key/value separator class) -/
def isSepChar (c : Char) : Bool :=
  c == '"' || c == '\'' || c == ' ' || c == '\t' || c == '\n' || c == '\r' ||
  c == ':' || c == '='

/-- `\s` -/
def isWsChar (c : Char) : Bool :=
  c == ' ' || c == '\t' || c == '\n' || c == '\r'

/-- `[^"'\s]` (a quoted password/secret value character) -/
def isPwChar (c : Char) : Bool :=
  !(c == '"' || c == '\'' || isWsChar c)

def isQuoteChar (c : Char) : Bool := c == '"' || c == '\''

/-- The thirteen credential regexes of `sanitizeCredentials`, in source
order, each with its replacement text. -/
def credentialRules : List (List RPat × Str) :=
  [ ([RPat.lit "pplx-".toList false, RPat.cls isTokChar 20],
     "pplx-***REDACTED***".toList),
    ([RPat.lit "sk-proj-".toList false, RPat.cls isTokChar 48],
     "sk-proj-***REDACTED***".toList),
    ([RPat.lit "sk-ant-".toList false, RPat.cls isTokChar 20],
     "sk-ant-***REDACTED***".toList),
    ([RPat.lit "sk-".toList false, RPat.cls isTokChar 20],
     "sk-***REDACTED***".toList),
    ([RPat.lit "AKIA".toList false, RPat.rep isUpperDigit 16],
     "AKIA***REDACTED***".toList),
    ([RPat.lit "ghp_".toList false, RPat.cls isAlnumChar 36],
     "ghp_***REDACTED***".toList),
    ([RPat.lit "ghs_".toList false, RPat.cls isAlnumChar 36],
     "ghs_***REDACTED***".toList),
    ([RPat.lit "eyJ".toList false, RPat.cls isTokChar 1,
      RPat.lit ".".toList false, RPat.lit "eyJ".toList false,
      RPat.cls isTokChar 1, RPat.lit ".".toList false, RPat.cls isTokChar 1],
     "***REDACTED_JWT***".toList),
    ([RPat.lit "Bearer".toList true, RPat.cls isWsChar 1, RPat.cls isValChar 1],
     "Bearer ***REDACTED***".toList),
    ([RPat.lit "api".toList true, RPat.opt (fun c => c == '_' || c == '-'),
      RPat.lit "key".toList true, RPat.cls isSepChar 1, RPat.cls isValChar 20],
     "api_key: ***REDACTED***".toList),
    ([RPat.lit "token".toList true, RPat.cls isSepChar 1, RPat.cls isValChar 20],
     "token: ***REDACTED***".toList),
    ([RPat.lit "password".toList true, RPat.cls isSepChar 1,
      RPat.opt isQuoteChar, RPat.cls isPwChar 8, RPat.opt isQuoteChar],
     "password: ***REDACTED***".toList),
    ([RPat.lit "secret".toList true, RPat.cls isSepChar 1,
      RPat.opt isQuoteChar, RPat.cls isPwChar 8, RPat.opt isQuoteChar],
     "secret: ***REDACTED***".toList) ]

/-- `sanitizeCredentials` from `src/utils/prompt-extraction.ts`: apply each
credential rule as a global replacement, in order. -/
def sanitizeCredentials (text : Str) : Str :=
  credentialRules.foldl (fun acc r => replaceAll r.1 r.2 acc) text

example :
    sanitizeCredentials "my key sk-abcdefghijklmnopqrstu end".toList =
      "my key sk-***REDACTED*** end".toList := by decide

example :
    sanitizeCredentials "password \"aaaaaaaa\"b".toList =
      "password: ***REDACTED***b".toList := by decide

/-! ## Azure deployment-name resolution (`src/utils/azure-model-resolver.ts`,
re-exported beside `src/utils/constants.ts`)

`resolveModelNameHeuristic` lower-cases the deployment name and runs an
ordered chain of regex tests; `resolveAzureModelName` adds a result cache and
a once-per-name warning cache.  The regex tests are all simple enough to
model as substring or anchored-prefix scans. -/

/-- Does `f` hold at some suffix position of the string? (`regex.test`.) -/
def existsAt (f : Str → Bool) : Str → Bool
  | [] => f []
  | c :: t => f (c :: t) || existsAt f t

/-- `/gpt-?4o/` anchored at the current position. -/
def gpt4oAt (cs : Str) : Bool :=
  ("gpt-4o".toList).isPrefixOf cs || ("gpt4o".toList).isPrefixOf cs

/-- `/gpt-?4(?!o)/` anchored at the current position. -/
def gpt4NonOAt (cs : Str) : Bool :=
  match stripLit "gpt-4".toList false cs with
  | some rest => (match rest with | 'o' :: _ => false | _ => true)
  | none =>
      match stripLit "gpt4".toList false cs with
      | some rest => (match rest with | 'o' :: _ => false | _ => true)
      | none => false

/-- `/gpt-?3\.?5/` anchored at the current position. -/
def gpt35At (cs : Str) : Bool :=
  ("gpt35".toList).isPrefixOf cs || ("gpt3.5".toList).isPrefixOf cs ||
  ("gpt-35".toList).isPrefixOf cs || ("gpt-3.5".toList).isPrefixOf cs

/-- `/dall-?e/` as a whole-string test. -/
def dalleTest (cs : Str) : Bool :=
  containsSub "dalle".toList cs || containsSub "dall-e".toList cs

/-- `knownModels` from `src/utils/constants.ts`. -/
def knownModels : List Str :=
  ["gpt-4o", "gpt-4o-mini", "gpt-4", "gpt-4-turbo", "gpt-4-vision-preview",
   "gpt-3.5-turbo", "gpt-3.5-turbo-instruct", "text-embedding-3-large",
   "text-embedding-3-small", "text-embedding-ada-002", "dall-e-3", "dall-e-2",
   "whisper-1", "tts-1", "tts-1-hd"].map String.toList

/-- The embedding sub-branch of the heuristic; falls through (`none`) when
the `/embed/` guard matches but none of its inner tests do. -/
def embedBranch (l : Str) : Option Str :=
  if containsSub "embed".toList l then
    if containsSub "text-embedding-3-large".toList l then
      some "text-embedding-3-large".toList
    else if containsSub "text-embedding-3-small".toList l then
      some "text-embedding-3-small".toList
    else if containsSub "text-embedding-ada-002".toList l ||
        containsSub "ada-002".toList l then
      some "text-embedding-ada-002".toList
    else if containsSub "3-large".toList l then
      some "text-embedding-3-large".toList
    else if containsSub "3-small".toList l then
      some "text-embedding-3-small".toList
    else none
  else none

/-- The DALL-E sub-branch; falls through when neither digit test matches. -/
def dalleBranch (l : Str) : Option Str :=
  if dalleTest l then
    if containsSub "3".toList l then some "dall-e-3".toList
    else if containsSub "2".toList l then some "dall-e-2".toList
    else none
  else none

/-- The pure part of `resolveModelNameHeuristic`: `some resolved` when one of
the heuristic branches returns, `none` when control reaches the final
no-match fallback. -/
def resolveModelNameHeuristicPure (deploymentName : Str) : Option Str :=
  let l := toLowerStr deploymentName
  if existsAt gpt4oAt l || containsSub "o4".toList l then
    some (if containsSub "mini".toList l then "gpt-4o-mini".toList
          else "gpt-4o".toList)
  else if existsAt gpt4NonOAt l then
    some (if containsSub "turbo".toList l then "gpt-4-turbo".toList
          else if containsSub "vision".toList l || containsSub "v".toList l then
            "gpt-4-vision-preview".toList
          else "gpt-4".toList)
  else if existsAt gpt35At l || containsSub "35-turbo".toList l ||
      containsSub "gpt-35".toList l then
    some (if containsSub "instruct".toList l then
            "gpt-3.5-turbo-instruct".toList
          else "gpt-3.5-turbo".toList)
  else
    embedBranch l <|>
    (if containsSub "ada-002".toList l then some "text-embedding-ada-002".toList
     else none) <|>
    dalleBranch l <|>
    (if containsSub "whisper".toList l then some "whisper-1".toList else none) <|>
    (if containsSub "tts".toList l then
       some (if containsSub "hd".toList l then "tts-1-hd".toList
             else "tts-1".toList)
     else none) <|>
    (if knownModels.contains l then some l else none)

/-- The resolver's process-wide mutable state: the deployment→model cache and
the set of names whose resolution already failed once. -/
structure ResolverState where
  modelNameCache : List (Str × Str)
  failedResolutionCache : List Str

/-- `resolveModelNameHeuristic` with its warning side effect made explicit:
returns the resolved name, the updated state, and the number of
`No heuristic match` warnings logged by this call. -/
def resolveModelNameHeuristic (deploymentName : Str) (st : ResolverState) :
    Str × ResolverState × Nat :=
  match resolveModelNameHeuristicPure deploymentName with
  | some r => (r, st, 0)
  | none =>
      if st.failedResolutionCache.contains deploymentName then
        (deploymentName, st, 0)
      else
        (deploymentName,
         { st with
             failedResolutionCache :=
               deploymentName :: st.failedResolutionCache }, 1)

/-- The observable outcome of one `resolveAzureModelName` call. -/
structure ResolveOut where
  result : Str
  state : ResolverState
  /-- `No heuristic match` warnings logged by this call. -/
  failWarns : Nat
  /-- `Empty deployment name` warnings logged by this call. -/
  emptyWarns : Nat
  /-- Whether the heuristic matcher ran (vs. cache hit or empty-name guard). -/
  ranHeuristic : Bool

/-- `resolveAzureModelName` from the source: empty-name guard, cache lookup,
heuristic, cache update. -/
def resolveAzureModelName (deploymentName : Str) (useCache : Bool)
    (st : ResolverState) : ResolveOut :=
  if deploymentName.isEmpty then ⟨deploymentName, st, 0, 1, false⟩
  else
    match (if useCache then st.modelNameCache.lookup deploymentName else none) with
    | some cached => ⟨cached, st, 0, 0, false⟩
    | none =>
        let out := resolveModelNameHeuristic deploymentName st
        let st2 :=
          if useCache then
            { out.2.1 with
                modelNameCache := (deploymentName, out.1) :: out.2.1.modelNameCache }
          else out.2.1
        ⟨out.1, st2, out.2.2, 0, true⟩

example :
    (resolveAzureModelName "gpt-4o-2024-11-20".toList true ⟨[], []⟩).result =
      "gpt-4o".toList := by decide

example :
    (resolveAzureModelName "my-custom-deployment".toList true ⟨[], []⟩).failWarns
      = 1 := by decide

/-! ## Data model for payloads, requests and responses

Token-count slots in the wire payload distinguish three states, exactly as
the TypeScript `number | null | undefined` typing does. -/

/-- A token-count slot of the Metering Payload: a reported number, the
explicit `null` marker, or the absent (`undefined`) marker. -/
inductive TokenCount where
  | undef
  | null
  | val (n : Nat)
deriving DecidableEq, Repr

/-- The `usage` sub-object of an OpenAI response; optional fields model
keys the provider may not report. -/
structure RespUsage where
  prompt_tokens : Nat
  completion_tokens : Option Nat
  total_tokens : Nat
  reasoning_tokens : Option Nat
  cached_tokens : Option Nat
deriving DecidableEq, Repr

structure Choice where
  finish_reason : Option String
deriving DecidableEq, Repr

/-- An OpenAI chat-completion response as the middleware probes it:
`usage` may be missing (invalid / unvalidated response shapes). -/
structure OpenAIChatResponse where
  id : Option String
  model : String
  usage : Option RespUsage
  choices : List Choice
deriving DecidableEq, Repr

structure StreamOptionsM where
  include_usage : Option Bool
  /-- Any other caller-supplied `stream_options` keys, preserved by spread. -/
  extra : List (String × String)
deriving DecidableEq, Repr

/-- A chat request as the wrapper sees it.  `extra` stands for all other
caller-supplied fields, which the middleware never touches. -/
structure OpenAIChatRequest where
  model : String
  messages : List String
  stream : Option Bool
  stream_options : Option StreamOptionsM
  usageMetadata : Option String
  extra : List (String × String)
deriving DecidableEq, Repr

inductive Provider where
  | OPENAI
  | AZURE_OPENAI
deriving DecidableEq, Repr

structure AzureConfig where
  endpoint : Option String
  apiVersion : Option String
  apiKey : Option String
deriving DecidableEq, Repr

structure ProviderInfo where
  provider : Provider
  isAzure : Bool
  azureConfig : Option AzureConfig
deriving DecidableEq, Repr

/-- `getProviderMetadata` from the provider detection module. -/
def getProviderMetadata (pi : ProviderInfo) : String × String :=
  if pi.isAzure then ("Azure", "AZURE_OPENAI") else ("OpenAI", "OPENAI")

/-- Modelled from the spec: `mapStopReason` lives in
`src/utils/stop-reason-mapper.ts`, which is not among the source files (only
its import sites are).  The spec says the payload's stop/finish reason is a
closed enum, hard-coded `"END"` for embeddings, and for chat "mapped from"
the response's `finish_reason`.  The claims only require payload fields to
equal `mapStopReason` of the finish reason, so the exact table is not
load-bearing. -/
def mapStopReason : Option String → String
  | some "stop" => "END"
  | some "length" => "TOKEN_LIMIT"
  | some "content_filter" => "ERROR"
  | some "error" => "ERROR"
  | some "cancelled" => "CANCELLED"
  | _ => "END"

inductive OperationType where
  | CHAT
  | EMBED
deriving DecidableEq, Repr

/-- The canonical Metering Payload (`ReveniumPayload`), restricted to the
fields the claims inspect.  `transactionId` is `some id` when the wrapped
response supplied one and `none` when the builder synthesizes a fresh
UUID-based id. -/
structure ReveniumPayload where
  transactionId : Option String
  operationType : String
  model : String
  requestTime : Nat
  requestDuration : Nat
  provider : String
  modelSource : String
  inputTokenCount : TokenCount
  outputTokenCount : TokenCount
  totalTokenCount : TokenCount
  reasoningTokenCount : TokenCount
  cacheCreationTokenCount : TokenCount
  cacheReadTokenCount : TokenCount
  stopReason : String
  isStreamed : Bool
  inputTokenCost : TokenCount
  outputTokenCost : TokenCount
  totalCost : TokenCount
deriving DecidableEq, Repr

/-- `x ?? undefined` on an optional number. -/
def optTok : Option Nat → TokenCount
  | some n => TokenCount.val n
  | none => TokenCount.undef

/-- `s || null` on an optional string (empty strings are falsy). -/
def orNull : Option String → Option String
  | some "" => none
  | x => x

/-! ## Payload builder (`src/core/tracking/payload-builder.ts`) -/

/-- `buildPayload`.  Reading `usage.prompt_tokens` off a response without a
`usage` object would throw in the source; that build failure is the
`.error` case. -/
def buildPayload (operationType : OperationType)
    (response : OpenAIChatResponse) (request : OpenAIChatRequest)
    (startTime duration : Nat) (providerInfo : Option ProviderInfo) :
    Except String ReveniumPayload :=
  match response.usage with
  | none => Except.error "TypeError: cannot read usage of undefined"
  | some usage =>
    let pm := match providerInfo with
      | some pi => getProviderMetadata pi
      | none => ("OpenAI", "OPENAI")
    if operationType ≠ OperationType.CHAT then
      Except.ok
        { transactionId := none
          operationType := "EMBED"
          model := response.model
          requestTime := startTime
          requestDuration := duration
          provider := pm.1
          modelSource := pm.2
          inputTokenCount := TokenCount.val usage.prompt_tokens
          outputTokenCount := TokenCount.val 0
          totalTokenCount := TokenCount.val usage.total_tokens
          reasoningTokenCount := TokenCount.undef
          cacheCreationTokenCount := TokenCount.undef
          cacheReadTokenCount := TokenCount.undef
          stopReason := "END"
          isStreamed := false
          inputTokenCost := TokenCount.undef
          outputTokenCost := TokenCount.undef
          totalCost := TokenCount.undef }
    else
      Except.ok
        { transactionId := orNull response.id
          operationType := "CHAT"
          model := response.model
          requestTime := startTime
          requestDuration := duration
          provider := pm.1
          modelSource := pm.2
          inputTokenCount := TokenCount.val usage.prompt_tokens
          outputTokenCount := TokenCount.val (usage.completion_tokens.getD 0)
          totalTokenCount := TokenCount.val usage.total_tokens
          reasoningTokenCount := optTok usage.reasoning_tokens
          cacheCreationTokenCount := TokenCount.undef
          cacheReadTokenCount := optTok usage.cached_tokens
          stopReason :=
            mapStopReason ((response.choices.head?).bind Choice.finish_reason)
          isStreamed := request.stream.getD false
          inputTokenCost := TokenCount.undef
          outputTokenCost := TokenCount.undef
          totalCost := TokenCount.undef }

/-- `buildImagePayload`, restricted to the claim-relevant fields (the
image-specific `attributes` bag is not inspected by any claim). -/
def buildImagePayload (requestModel : Option String)
    (startTime duration : Nat) (providerInfo : Option ProviderInfo) :
    ReveniumPayload :=
  let pm := match providerInfo with
    | some pi => getProviderMetadata pi
    | none => ("OpenAI", "OPENAI")
  { transactionId := none
    operationType := "IMAGE"
    model := requestModel.getD "dall-e-2"
    requestTime := startTime
    requestDuration := duration
    provider := pm.1
    modelSource := pm.2
    inputTokenCount := TokenCount.null
    outputTokenCount := TokenCount.null
    totalTokenCount := TokenCount.null
    reasoningTokenCount := TokenCount.undef
    cacheCreationTokenCount := TokenCount.undef
    cacheReadTokenCount := TokenCount.undef
    stopReason := "END"
    isStreamed := false
    inputTokenCost := TokenCount.undef
    outputTokenCost := TokenCount.undef
    totalCost := TokenCount.undef }

/-- `buildAudioPayload`, restricted to the claim-relevant fields. -/
def buildAudioPayload (requestModel : Option String)
    (startTime duration : Nat) (providerInfo : Option ProviderInfo) :
    ReveniumPayload :=
  let pm := match providerInfo with
    | some pi => getProviderMetadata pi
    | none => ("OpenAI", "OPENAI")
  { transactionId := none
    operationType := "AUDIO"
    model := requestModel.getD "whisper-1"
    requestTime := startTime
    requestDuration := duration
    provider := pm.1
    modelSource := pm.2
    inputTokenCount := TokenCount.null
    outputTokenCount := TokenCount.null
    totalTokenCount := TokenCount.null
    reasoningTokenCount := TokenCount.undef
    cacheCreationTokenCount := TokenCount.undef
    cacheReadTokenCount := TokenCount.undef
    stopReason := "END"
    isStreamed := false
    inputTokenCost := TokenCount.undef
    outputTokenCost := TokenCount.undef
    totalCost := TokenCount.undef }

/-! ## Usage tracker (`src/core/tracking/usage-tracker.ts`)

`trackUsageAsync` is fire-and-forget: it rebuilds a mock response/request
from its tracking data, hands them to `sendReveniumMetrics`, and attaches a
`.catch` so no rejection ever escapes.  Metering failure is made explicit as
a `MeterFail` parameter: the build step or the delivery step may throw. -/

/-- Which step of metering fails, if any, for one tracked operation. -/
inductive MeterFail where
  | ok
  | buildCrash
  | sendCrash
deriving DecidableEq, Repr

/-- The data record handed to `trackUsageAsync`. -/
structure TrackingData where
  requestId : String
  model : String
  promptTokens : Nat
  completionTokens : Nat
  totalTokens : Nat
  reasoningTokens : Option Nat
  cachedTokens : Option Nat
  duration : Nat
  finishReason : Option String
  usageMetadata : Option String
  isStreamed : Option Bool
  timeToFirstToken : Option Nat
  providerInfo : Option ProviderInfo
  responseContent : Option Str
deriving DecidableEq, Repr

/-- JavaScript truthiness on an optional count: `…(x && { key: x })` omits
the key when `x` is `undefined` or `0`. -/
def truthyNat : Option Nat → Option Nat
  | some (n + 1) => some (n + 1)
  | _ => none

/-- The `mockResponse` object `trackUsageAsync` constructs. -/
def trackMockResponse (d : TrackingData) : OpenAIChatResponse :=
  { id := some d.requestId
    model := d.model
    usage := some
      { prompt_tokens := d.promptTokens
        completion_tokens := some d.completionTokens
        total_tokens := d.totalTokens
        reasoning_tokens := truthyNat d.reasoningTokens
        cached_tokens := truthyNat d.cachedTokens }
    choices := [⟨d.finishReason⟩] }

/-- The `mockRequest` object `trackUsageAsync` constructs. -/
def trackMockRequest (d : TrackingData) : OpenAIChatRequest :=
  { model := d.model
    messages := []
    stream := d.isStreamed
    stream_options := none
    usageMetadata := d.usageMetadata
    extra := [] }

/-- `sendReveniumMetrics`, with its effects made explicit: the list of
payloads handed to `sendToRevenium` and the error (if any) that
`safeAsyncOperation` caught and logged.  `safeAsyncOperation` is invoked with
`rethrow: false`, so the error never leaves this function — the return type
has no error channel.  (`safeAsyncOperation` itself and `sendToRevenium` live
in files absent from src/; their catch/fire behaviour here is modelled from
the spec's fire-and-forget contract.) -/
def sendReveniumMetrics (response : OpenAIChatResponse)
    (request : OpenAIChatRequest) (startTime duration : Nat)
    (providerInfo : Option ProviderInfo) (mf : MeterFail) :
    List ReveniumPayload × Option String :=
  match mf with
  | MeterFail.buildCrash => ([], some "payload build failed")
  | _ =>
    match buildPayload OperationType.CHAT response request startTime duration
        providerInfo with
    | Except.error e => ([], some e)
    | Except.ok p =>
        if mf = MeterFail.sendCrash then ([p], some "metering delivery failed")
        else ([p], none)

/-- `trackUsageAsync`: builds the mocks, fires `sendReveniumMetrics`, and
returns the payloads shipped.  Any metering error is already absorbed inside
`sendReveniumMetrics` (and the `.catch` attached here would absorb the rest),
so the result carries no error channel. -/
def trackUsageAsync (d : TrackingData) (mf : MeterFail) : List ReveniumPayload :=
  (sendReveniumMetrics (trackMockResponse d) (trackMockRequest d)
    (d.duration - d.duration) d.duration d.providerInfo mf).1

/-! ## Request handlers (`src/core/wrapper/request-handler.ts`) -/

/-- An error surfaced to the caller: either the typed `NetworkError`
(carrying the classification and elapsed duration) or the original error
unchanged. -/
inductive ThrownError where
  | NetworkError (msg : String) (duration : Nat)
  | plain (msg : String)
deriving DecidableEq, Repr

/-- `MESSAGE_PATTERNS_TYPE_NETWORK` from `src/utils/constants.ts`. -/
def MESSAGE_PATTERNS_TYPE_NETWORK : List String :=
  ["network", "timeout", "ECONNRESET"]

/-- Modelled from the spec: `classifyError` (`src/utils/error-handler.ts`) is
not among the source files.  The spec says upstream errors are classified
network-shaped vs configuration-shaped "via message-pattern matching" against
the pattern lists in `src/utils/constants.ts`. -/
def classifyErrorIsNetwork (msg : String) : Bool :=
  MESSAGE_PATTERNS_TYPE_NETWORK.any (fun p => containsSub p.toList msg.toList)

/-- The `transformError` callback `handleNonStreamingRequest` installs:
network-shaped messages become a typed `NetworkError` carrying the elapsed
duration; everything else is re-thrown unchanged. -/
def transformChatError (msg : String) (duration : Nat) : ThrownError :=
  if classifyErrorIsNetwork msg then ThrownError.NetworkError msg duration
  else ThrownError.plain msg

/-- `hasValidUsage` from `src/utils/type-guards.ts`. -/
def hasValidUsage (r : OpenAIChatResponse) : Bool := r.usage.isSome

/-- `isOpenAIChatResponse` from `src/utils/type-guards.ts`. -/
def isOpenAIChatResponse (r : OpenAIChatResponse) : Bool :=
  r.id.isSome &&
  (match r.usage with
   | some u => u.completion_tokens.isSome
   | none => false)

/-- `handleNonStreamingRequest`.  The outcome of the original wrapped call is
the `call` argument (`.error msg` models a rejection).  Returns the
caller-visible outcome together with the metering payloads shipped.
(`safeAsyncOperation` with `rethrow: true` applies `transformChatError` to a
raised error and rethrows; that wrapper is modelled from the spec, the
transform itself is source code.) -/
def handleNonStreamingRequest (call : Except String OpenAIChatResponse)
    (usageMetadata : Option String) (requestStartTime now : Nat)
    (providerInfo : Option ProviderInfo) (mf : MeterFail) :
    Except ThrownError OpenAIChatResponse × List ReveniumPayload :=
  match call with
  | Except.error e =>
      (Except.error (transformChatError e (now - requestStartTime)), [])
  | Except.ok response =>
      match response.usage with
      | none => (Except.ok response, [])
      | some u =>
          if isOpenAIChatResponse response then
            (Except.ok response,
             trackUsageAsync
               { requestId := response.id.getD ""
                 model := response.model
                 promptTokens := u.prompt_tokens
                 completionTokens := u.completion_tokens.getD 0
                 totalTokens := u.total_tokens
                 reasoningTokens := u.reasoning_tokens
                 cachedTokens := u.cached_tokens
                 duration := now - requestStartTime
                 finishReason :=
                   orNull ((response.choices.head?).bind Choice.finish_reason)
                 usageMetadata := usageMetadata
                 isStreamed := some false
                 timeToFirstToken := none
                 providerInfo := providerInfo
                 responseContent := none } mf)
          else (Except.ok response, [])

/-- The catch-and-rethrow of `handleStreamingRequest` (and of
`handleEmbeddingsRequest`): the original call's error is logged and re-thrown
to the caller unchanged — no classification, no typed wrapper. -/
def handleStreamingRequestResult {α : Type} (call : Except String α) :
    Except ThrownError α :=
  match call with
  | Except.error e => Except.error (ThrownError.plain e)
  | Except.ok s => Except.ok s

/-! ## Metadata extraction and parameter forwarding
(`src/core/wrapper/instance-patcher.ts` + `request-handler.ts`) -/

/-- Modelled from the spec: `extractMetadata` (`src/utils/metadata-builder.ts`)
is not among the source files.  Per the spec, `usageMetadata` "is extracted
and removed from the request before delegation"; all other fields are left
as they are. -/
def extractMetadata (p : OpenAIChatRequest) :
    Option String × OpenAIChatRequest :=
  (p.usageMetadata, { p with usageMetadata := none })

/-- The `enhancedParams` construction inside `handleStreamingRequest`:
`stream_options` becomes `{ include_usage: true, ...(params.stream_options ||
{}) }` — caller-supplied keys win over the injected default. -/
def enhanceStreamParams (params : OpenAIChatRequest) : OpenAIChatRequest :=
  { params with
      stream_options := some
        { include_usage :=
            some ((params.stream_options.bind StreamOptionsM.include_usage).getD
              true)
          extra := (params.stream_options.map StreamOptionsM.extra).getD [] } }

/-- The parameters the patched `chat.completions.create` ultimately passes to
the original method: metadata is stripped, then `routeChatRequest` hands the
clean params to the streaming handler (which enhances `stream_options`) when
`params.stream` is truthy, or to the non-streaming handler (which forwards
them unmodified) otherwise. -/
def forwardedChatParams (p : OpenAIChatRequest) : OpenAIChatRequest :=
  let clean := (extractMetadata p).2
  if clean.stream.getD false then enhanceStreamParams clean else clean

/-! ## Streaming wrappers

Two distinct streaming wrappers exist in the source:

* `StreamingWrapper` (`src/core/middleware/interfaces.ts`), whose async
  generator has a `completed` flag, a `catch` that tracks an `"error"` event
  before re-throwing, and a `finally` that tracks a `"cancelled"` event when
  the consumer stopped early;
* `createTrackingStreamWrapper` (`src/core/wrapper/stream-wrapper.ts`), whose
  generator tracks only after a normal loop completion and has no
  `finally` block.

A run is modelled by: the chunk list the underlying stream yields, how the
underlying stream terminates (`ends` or `raises`), and how many chunks the
consumer pulls before calling `return()` (`none` = consumes to the natural
end; `some n` = abandons after receiving `n` chunks; `some 0` means the
consumer never even started the generator, in which case no generator code —
including `finally` — ever runs). -/

inductive StreamTail where
  | ends
  | raises (msg : String)
deriving DecidableEq, Repr

/-- A chunk as `StreamingWrapper` probes it. -/
structure SChunk where
  id : Option String
  deltaContent : Option Str
  usage : Option RespUsage
deriving DecidableEq, Repr

/-- Mutable per-stream state of `StreamingWrapper`.  Wall-clock instants are
abstracted: `firstTokenSeen` records whether `firstTokenTime` was set. -/
structure SWState where
  usage : Option RespUsage
  firstTokenSeen : Bool
  accumulatedContent : Str
  requestId : String
deriving DecidableEq, Repr

/-- `StreamingWrapper.buildTrackingPayload`. -/
def buildTrackingPayload (model : String) (metadata : Option String)
    (pinfo : Option ProviderInfo) (duration : Nat) (st : SWState)
    (finishReason : Option String) (timeToFirstToken : Option Nat) :
    TrackingData :=
  { requestId := st.requestId
    model := model
    promptTokens := (st.usage.map RespUsage.prompt_tokens).getD 0
    completionTokens := (st.usage.bind RespUsage.completion_tokens).getD 0
    totalTokens := (st.usage.map RespUsage.total_tokens).getD 0
    reasoningTokens := st.usage.bind RespUsage.reasoning_tokens
    cachedTokens := st.usage.bind RespUsage.cached_tokens
    duration := duration
    finishReason := finishReason
    usageMetadata := metadata
    isStreamed := some true
    timeToFirstToken := timeToFirstToken
    providerInfo := pinfo
    responseContent :=
      if st.accumulatedContent.isEmpty then none
      else some (sanitizeCredentials st.accumulatedContent) }

/-- The abstracted `firstTokenTime - startTime` value. -/
def swTtft (st : SWState) : Option Nat :=
  if st.firstTokenSeen then some 0 else none

/-- The per-chunk body of `StreamingWrapper`'s loop: record first content
chunk, accumulate capped content when capture is on, keep the latest usage
snapshot, adopt the chunk id. -/
def swStep (cap : Bool) (maxSize : Nat) (st : SWState) (c : SChunk) : SWState :=
  let hasContent := match c.deltaContent with
    | some dc => !dc.isEmpty
    | none => false
  let st1 :=
    if !st.firstTokenSeen && hasContent then { st with firstTokenSeen := true }
    else st
  let st2 :=
    if hasContent && cap then
      let remaining := maxSize - st1.accumulatedContent.length
      if remaining > 0 then
        { st1 with
            accumulatedContent :=
              st1.accumulatedContent ++ (c.deltaContent.getD []).take remaining }
      else st1
    else st1
  let st3 := match c.usage with
    | some u => { st2 with usage := some u }
    | none => st2
  match c.id with
  | some i => if i ≠ "" then { st3 with requestId := i } else st3
  | none => st3

/-- The generator body of `StreamingWrapper.[Symbol.asyncIterator]`, from a
suspension point inside the loop: returns the tracking events fired on the
way to any exit.  `abandon = some 0` means the consumer calls `return()` at
the current yield, which runs only the `finally` block. -/
def swRun (cap : Bool) (maxSize : Nat) (model : String)
    (metadata : Option String) (pinfo : Option ProviderInfo) (duration : Nat)
    (st : SWState) (chunks : List SChunk) (tail : StreamTail)
    (abandon : Option Nat) : List TrackingData :=
  match abandon with
  | some 0 =>
      [buildTrackingPayload model metadata pinfo duration st
        (some "cancelled") (swTtft st)]
  | _ =>
    match chunks with
    | c :: cs =>
        swRun cap maxSize model metadata pinfo duration
          (swStep cap maxSize st c) cs tail (abandon.map (· - 1))
    | [] =>
      match tail with
      | StreamTail.ends =>
          [buildTrackingPayload model metadata pinfo duration st none
            (swTtft st)]
      | StreamTail.raises _ =>
          [buildTrackingPayload model metadata pinfo duration st
            (some "error") none]

/-- The initial per-stream state (`requestId` starts as a fresh UUID). -/
def swInit (initialRequestId : String) : SWState :=
  ⟨none, false, [], initialRequestId⟩

/-- One full consumption of a `StreamingWrapper`: if the consumer never
pulls, the generator body never runs and nothing fires; otherwise the run
proceeds from the initial state. -/
def runStreamingWrapper (cap : Bool) (maxSize : Nat) (model : String)
    (metadata : Option String) (pinfo : Option ProviderInfo) (duration : Nat)
    (initialRequestId : String) (chunks : List SChunk) (tail : StreamTail)
    (abandon : Option Nat) : List TrackingData :=
  match abandon with
  | some 0 => []
  | _ =>
      swRun cap maxSize model metadata pinfo duration
        (swInit initialRequestId) chunks tail abandon

/-- A chunk as `createTrackingStreamWrapper` probes it. -/
structure RawChunk where
  id : Option String
  model : Option String
  usage : Option RespUsage
deriving DecidableEq, Repr

/-- `isStreamChunk` from `src/utils/type-guards.ts`. -/
def isStreamChunk (c : RawChunk) : Bool := c.id.isSome && c.model.isSome

/-- The `accumulatedResponse` update of `createTrackingStreamWrapper`:
initialized (with zeroed usage) on the first valid chunk, usage replaced by
any chunk that carries one. -/
def ctsStep (acc : Option (String × String × RespUsage)) (c : RawChunk) :
    Option (String × String × RespUsage) :=
  if isStreamChunk c then
    let acc1 := match acc with
      | none => some (c.id.getD "", c.model.getD "", ⟨0, some 0, 0, none, none⟩)
      | some a => some a
    match c.usage with
    | some u => acc1.map (fun a => (a.1, a.2.1, u))
    | none => acc1
  else acc

/-- The generator of `createTrackingStreamWrapper`: tracking fires only when
the loop finishes normally with an accumulated response; the `catch` logs and
re-throws without tracking, and there is no `finally`, so `return()` fires
nothing. -/
def ctsRun (metadata : Option String) (pinfo : Option ProviderInfo)
    (duration : Nat) (acc : Option (String × String × RespUsage))
    (chunks : List RawChunk) (tail : StreamTail) (abandon : Option Nat) :
    List TrackingData :=
  match abandon with
  | some 0 => []
  | _ =>
    match chunks with
    | c :: cs =>
        ctsRun metadata pinfo duration (ctsStep acc c) cs tail
          (abandon.map (· - 1))
    | [] =>
      match tail with
      | StreamTail.raises _ => []
      | StreamTail.ends =>
        match acc with
        | none => []
        | some (i, m, u) =>
            [{ requestId := i
               model := m
               promptTokens := u.prompt_tokens
               completionTokens := u.completion_tokens.getD 0
               totalTokens := u.total_tokens
               reasoningTokens := u.reasoning_tokens
               cachedTokens := u.cached_tokens
               duration := duration
               finishReason := none
               usageMetadata := metadata
               isStreamed := some true
               timeToFirstToken := none
               providerInfo := pinfo
               responseContent := none }]

/-- One full consumption of a `createTrackingStreamWrapper` stream. -/
def runCreateTrackingStreamWrapper (metadata : Option String)
    (pinfo : Option ProviderInfo) (duration : Nat) (chunks : List RawChunk)
    (tail : StreamTail) (abandon : Option Nat) : List TrackingData :=
  ctsRun metadata pinfo duration none chunks tail abandon

/-! ## Provider detection (`src/utils/provider-detection.ts`,
`src/core/providers/detector.ts`) -/

/-- A wrapped client instance as the detection and patching code probes it. -/
structure ClientInstance where
  ctorName : Option String
  baseURL : Option String
  hasChat : Bool
  hasEmbeddings : Bool
  hasResponses : Bool
deriving DecidableEq, Repr

/-- The process environment variables detection consults. -/
structure EnvVars where
  azureEndpoint : Option String
  azureApiVersion : Option String
  azureApiKey : Option String
deriving DecidableEq, Repr

/-- `isOpenAIClientInstance` from `src/utils/type-guards.ts`. -/
def isOpenAIClientInstance (c : ClientInstance) : Bool :=
  c.baseURL.isSome || c.hasChat || c.hasEmbeddings

/-- A detection strategy; `detect` may throw (`Except.error`), which the
runner catches per strategy. -/
structure DetectionStrategy where
  priority : Nat
  detect : ClientInstance → EnvVars → Except Unit Bool

/-- The `Constructor Name` strategy (priority 100). -/
def strategyConstructorName : DetectionStrategy :=
  ⟨100, fun c _ =>
    Except.ok (match c.ctorName with
      | some n => containsSub "Azure".toList n.toList
      | none => false)⟩

/-- The `Base URL` strategy (priority 90). -/
def strategyBaseURL : DetectionStrategy :=
  ⟨90, fun c _ =>
    Except.ok (match c.baseURL with
      | some u => containsSub "azure".toList (toLowerStr u.toList)
      | none => false)⟩

/-- The `Environment Variables` strategy (priority 80). -/
def strategyEnvVars : DetectionStrategy :=
  ⟨80, fun c env =>
    Except.ok
      (let isExplicitlyOpenAI :=
        (match c.baseURL with
         | some u => containsSub "api.openai.com".toList u.toList
         | none => false) ||
        (match c.ctorName with
         | some n =>
             containsSub "openai".toList (toLowerStr n.toList) &&
             !containsSub "azure".toList (toLowerStr n.toList)
         | none => false)
      !isExplicitlyOpenAI && env.azureEndpoint.isSome)⟩

def DETECTION_STRATEGIES : List DetectionStrategy :=
  [strategyConstructorName, strategyBaseURL, strategyEnvVars]

/-- Stable insertion into a priority-descending list. -/
def insertByPriority (s : DetectionStrategy) :
    List DetectionStrategy → List DetectionStrategy
  | [] => [s]
  | t :: ts =>
      if s.priority ≤ t.priority then t :: insertByPriority s ts
      else s :: t :: ts

/-- `[...strategies].sort((a, b) => b.priority - a.priority)`. -/
def sortByPriorityDesc : List DetectionStrategy → List DetectionStrategy
  | [] => []
  | s :: rest => insertByPriority s (sortByPriorityDesc rest)

/-- The strategy loop of `detectProviderStrategy`: first strategy returning
`true` wins; a throwing strategy is caught, logged and skipped; default is
OpenAI. -/
def detectGo (strats : List DetectionStrategy) (c : ClientInstance)
    (env : EnvVars) : Provider :=
  match strats with
  | [] => Provider.OPENAI
  | s :: rest =>
      match s.detect c env with
      | Except.ok true => Provider.AZURE_OPENAI
      | Except.ok false => detectGo rest c env
      | Except.error _ => detectGo rest c env

/-- `detectProviderStrategy` over the source's strategy list. -/
def detectProviderStrategy (c : ClientInstance) (env : EnvVars) : Provider :=
  detectGo (sortByPriorityDesc DETECTION_STRATEGIES) c env

/-- `gatherAzureConfigStrategy`: the `Client BaseURL` strategy contributes
the endpoint first; the `Environment Variables` strategy fills only keys not
already set. -/
def gatherAzureConfigStrategy (c : ClientInstance) (env : EnvVars) :
    AzureConfig :=
  { endpoint := match c.baseURL with
      | some e => some e
      | none => env.azureEndpoint
    apiVersion := env.azureApiVersion
    apiKey := env.azureApiKey }

/-- `createProviderInfo`. -/
def createProviderInfo (c : ClientInstance) (env : EnvVars) : ProviderInfo :=
  if detectProviderStrategy c env = Provider.AZURE_OPENAI then
    ⟨Provider.AZURE_OPENAI, true, some (gatherAzureConfigStrategy c env)⟩
  else ⟨Provider.OPENAI, false, none⟩

/-- The OpenAI fallback `detectProvider` returns on invalid instances and on
any internal detection error. -/
def defaultProviderInfo : ProviderInfo := ⟨Provider.OPENAI, false, none⟩

/-- `detectProvider` from `src/core/providers/detector.ts`.  `internalError`
abstracts "something inside the try block threw", which the catch turns into
the OpenAI default. -/
def detectProvider (c : ClientInstance) (env : EnvVars)
    (internalError : Bool) : ProviderInfo :=
  if !isOpenAIClientInstance c then defaultProviderInfo
  else if internalError then defaultProviderInfo
  else createProviderInfo c env

/-! ## Instance patcher (`src/core/wrapper/instance-patcher.ts`) -/

/-- The patch-relevant state of one client instance: how many interception
layers wrap each target method, whether the instance is in the
`patchedInstances` weak set, and its `instanceProviders` entry. -/
structure PatchState where
  client : ClientInstance
  chatLayers : Nat
  embLayers : Nat
  respLayers : Nat
  inPatchedSet : Bool
  providerEntry : Option ProviderInfo
deriving DecidableEq, Repr

/-- `patchInstance`: validate, detect provider, wrap each present capability
once, mark patched.  Invalid instances are left untouched (and not marked). -/
def patchInstance (env : EnvVars) (s : PatchState) : PatchState :=
  if !isOpenAIClientInstance s.client then s
  else
    { s with
        providerEntry := some (detectProvider s.client env false)
        chatLayers := s.chatLayers + (if s.client.hasChat then 1 else 0)
        embLayers := s.embLayers + (if s.client.hasEmbeddings then 1 else 0)
        respLayers := s.respLayers + (if s.client.hasResponses then 1 else 0)
        inPatchedSet := true }

/-- `patchOpenAIInstance`: the identity-keyed membership test makes a second
call on the same instance a no-op. -/
def patchOpenAIInstance (env : EnvVars) (s : PatchState) : PatchState :=
  if s.inPatchedSet then s else patchInstance env s

/-- Metering events produced by one valid non-streaming chat call through a
patched instance: each installed interception layer routes the call through
`handleNonStreamingRequest` exactly once, so the call produces one payload
batch per layer. -/
def meteringEventsPerChatCall (s : PatchState)
    (call : Except String OpenAIChatResponse) (usageMetadata : Option String)
    (requestStartTime now : Nat) (mf : MeterFail) : Nat :=
  s.chatLayers *
    (handleNonStreamingRequest call usageMetadata requestStartTime now
      s.providerEntry mf).2.length

/-! # Claim theorems -/

/-- C7 — counterexample.  Both conjuncts of the claim fail on the code.
(i) Not idempotent: on `password "aaaaaaaa"b` the first pass matches the
quoted value (the greedy separator class absorbs the opening quote and the
optional trailing quote closes the match before `b`), yielding
`password: ***REDACTED***b`; on that output the password rule matches again
across `***REDACTED***b`, so a second pass produces different text.
(ii) Not one-directional for every input: the secret
`sk-` ++ 13×`a` ++ `api_key` — an `sk-`-prefixed token with exactly 20 tail
characters from `[a-zA-Z0-9_-]` — occurs verbatim in the input
`<secret>!sk-aaaaaaaaaaaaa` ++ `apikey=` ++ 20×`b` and is redacted at its own
occurrence by the `sk-` rule, yet it reappears verbatim in the final output:
the second `sk-` prefix carries only 19 token characters (`apikey` has 6), so
the `sk-` rule leaves it, and the `api_key` rule then rewrites
`apikey=bbb…` to the replacement literal `api_key: ***REDACTED***`, whose
`api_key` (7 token characters) completes the surviving prefix into the exact
secret string. -/
theorem sanitizeCredentials_claim_counterexamples :
    sanitizeCredentials (sanitizeCredentials "password \"aaaaaaaa\"b".toList) ≠
      sanitizeCredentials "password \"aaaaaaaa\"b".toList ∧
    containsSub ("sk-".toList ++ List.replicate 13 'a' ++ "api_key".toList)
      ("sk-".toList ++ List.replicate 13 'a' ++ "api_key".toList ++
        "!sk-".toList ++ List.replicate 13 'a' ++ "apikey=".toList ++
        List.replicate 20 'b') = true ∧
    sanitizeCredentials
        ("sk-".toList ++ List.replicate 13 'a' ++ "api_key".toList ++
          "!sk-".toList ++ List.replicate 13 'a' ++ "apikey=".toList ++
          List.replicate 20 'b') =
      ("sk-***REDACTED***!sk-".toList ++ List.replicate 13 'a' ++
        "api_key: ***REDACTED***".toList) ∧
    containsSub ("sk-".toList ++ List.replicate 13 'a' ++ "api_key".toList)
      (sanitizeCredentials
        ("sk-".toList ++ List.replicate 13 'a' ++ "api_key".toList ++
          "!sk-".toList ++ List.replicate 13 'a' ++ "apikey=".toList ++
          List.replicate 20 'b')) = true := by
  refine ⟨by decide, by decide, by decide, by decide⟩

/-- C7 — amended claim: `sanitizeCredentials` is neither idempotent nor
universally one-directional.  Re-sanitizing can redact further when a quoted
password/secret value abuts trailing text, and a redacted secret can be
reassembled verbatim when a keyword replacement literal (`api_key`) completes
a partial `sk-` token left elsewhere in the text — though even then the raw
credential value handed to the keyword rule never survives.  On
straightforward inputs — such as the spec's example 24-character
`sk-`-prefixed token surrounded by plain text — the secret is redacted, never
appears verbatim in the output, and the output is a fixed point of
re-sanitization. -/
theorem sanitizeCredentials_one_directional :
    containsSub "sk-abcdefghijklmnopqrstu".toList
      (sanitizeCredentials
        ("my key is ".toList ++ "sk-abcdefghijklmnopqrstu".toList ++
          " end".toList)) = false ∧
    sanitizeCredentials
        (sanitizeCredentials
          ("my key is ".toList ++ "sk-abcdefghijklmnopqrstu".toList ++
            " end".toList)) =
      sanitizeCredentials
        ("my key is ".toList ++ "sk-abcdefghijklmnopqrstu".toList ++
          " end".toList) ∧
    containsSub (List.replicate 20 'b')
      (sanitizeCredentials
        ("sk-".toList ++ List.replicate 13 'a' ++ "api_key".toList ++
          "!sk-".toList ++ List.replicate 13 'a' ++ "apikey=".toList ++
          List.replicate 20 'b')) = false := by
  refine ⟨by decide, by decide, by decide⟩

/-- C8 — counterexample.  The empty string is a deployment name matching no
heuristic pattern and resolving to itself, yet its first call logs no
`No heuristic match` warning at all (only the `Empty deployment name`
warning), and every subsequent call logs that warning again — contradicting
"exactly one warning on the first occurrence and none on subsequent
occurrences". -/
theorem resolveAzureModelName_empty_name_warning :
    resolveModelNameHeuristicPure [] = none ∧
    (resolveAzureModelName [] true ⟨[], []⟩).result = [] ∧
    (resolveAzureModelName [] true ⟨[], []⟩).failWarns = 0 ∧
    (resolveAzureModelName [] true ⟨[], []⟩).emptyWarns = 1 ∧
    (resolveAzureModelName [] true
        (resolveAzureModelName [] true ⟨[], []⟩).state).emptyWarns = 1 := by
  decide

/-- C8 — amended claim: `"gpt-4o-2024-11-20"` resolves to `"gpt-4o"`; every
non-empty deployment name matching no heuristic pattern resolves to itself,
logs exactly one `No heuristic match` warning on its first occurrence and
none on subsequent occurrences, and with the cache enabled the repeated call
returns the same output without re-running the heuristic.  The empty
deployment name resolves to itself but logs an `Empty deployment name`
warning on every call instead. -/
theorem resolveAzureModelName_spec :
    (resolveAzureModelName "gpt-4o-2024-11-20".toList true ⟨[], []⟩).result =
      "gpt-4o".toList ∧
    ∀ (name : Str) (st : ResolverState), name ≠ [] →
      resolveModelNameHeuristicPure name = none →
      st.failedResolutionCache.contains name = false →
      st.modelNameCache.lookup name = none →
      (resolveAzureModelName name true st).result = name ∧
      (resolveAzureModelName name true st).failWarns = 1 ∧
      (resolveAzureModelName name true st).ranHeuristic = true ∧
      (resolveAzureModelName name true
          (resolveAzureModelName name true st).state).result = name ∧
      (resolveAzureModelName name true
          (resolveAzureModelName name true st).state).failWarns = 0 ∧
      (resolveAzureModelName name true
          (resolveAzureModelName name true st).state).ranHeuristic = false := by
  refine ⟨by decide, ?_⟩
  intro name st hne hpure hfail hcache
  have hempty : name.isEmpty = false := by
    cases name with
    | nil => exact absurd rfl hne
    | cons a l => rfl
  have hmem : name ∉ st.failedResolutionCache := by simpa using hfail
  have h1 :
      resolveAzureModelName name true st =
        ⟨name,
         ⟨(name, name) :: st.modelNameCache,
          name :: st.failedResolutionCache⟩, 1, 0, true⟩ := by
    simp [resolveAzureModelName, resolveModelNameHeuristic, hempty, hpure,
      hmem, hcache]
  have h2 :
      resolveAzureModelName name true
          ⟨(name, name) :: st.modelNameCache,
           name :: st.failedResolutionCache⟩ =
        ⟨name,
         ⟨(name, name) :: st.modelNameCache,
          name :: st.failedResolutionCache⟩, 0, 0, false⟩ := by
    simp [resolveAzureModelName, hempty, List.lookup]
  rw [h1]
  rw [h2]
  exact ⟨rfl, rfl, rfl, rfl, rfl, rfl⟩

/-- C8 — witness: the amended resolver theorem applied to the unmatched
deployment name `"my-custom-deployment"` from a fresh state. -/
theorem resolveAzureModelName_spec_witness :
    (resolveAzureModelName "my-custom-deployment".toList true ⟨[], []⟩).result =
      "my-custom-deployment".toList ∧
    (resolveAzureModelName "my-custom-deployment".toList true ⟨[], []⟩).failWarns
      = 1 ∧
    (resolveAzureModelName "my-custom-deployment".toList true ⟨[], []⟩).ranHeuristic
      = true ∧
    (resolveAzureModelName "my-custom-deployment".toList true
        (resolveAzureModelName "my-custom-deployment".toList true
          ⟨[], []⟩).state).result = "my-custom-deployment".toList ∧
    (resolveAzureModelName "my-custom-deployment".toList true
        (resolveAzureModelName "my-custom-deployment".toList true
          ⟨[], []⟩).state).failWarns = 0 ∧
    (resolveAzureModelName "my-custom-deployment".toList true
        (resolveAzureModelName "my-custom-deployment".toList true
          ⟨[], []⟩).state).ranHeuristic = false :=
  resolveAzureModelName_spec.2 "my-custom-deployment".toList ⟨[], []⟩
    (by decide) (by decide) (by decide) (by decide)

/-- C10: `detectProvider` is total and preserves the `ProviderInfo`
invariant: for every client, environment and internal outcome — including
invalid client instances and detection strategies that throw — it returns a
`ProviderInfo` in which `isAzure` holds exactly when the provider is
`AZURE_OPENAI` and `azureConfig` is populated only when `isAzure` holds; an
invalid instance or any internal detection error yields the OpenAI default,
and a throwing strategy is skipped in favour of the remaining strategies. -/
theorem detectProvider_total_and_invariant :
    (∀ (c : ClientInstance) (env : EnvVars) (ie : Bool),
      ((detectProvider c env ie).isAzure = true ↔
        (detectProvider c env ie).provider = Provider.AZURE_OPENAI) ∧
      ((detectProvider c env ie).azureConfig.isSome = true →
        (detectProvider c env ie).isAzure = true)) ∧
    (∀ (c : ClientInstance) (env : EnvVars),
      detectProvider c env true = defaultProviderInfo) ∧
    (∀ (c : ClientInstance) (env : EnvVars),
      isOpenAIClientInstance c = false →
      detectProvider c env false = defaultProviderInfo) ∧
    (∀ (s : DetectionStrategy) (rest : List DetectionStrategy)
        (c : ClientInstance) (env : EnvVars),
      s.detect c env = Except.error () →
      detectGo (s :: rest) c env = detectGo rest c env) := by
  refine ⟨?_, ?_, ?_, ?_⟩
  · intro c env ie
    unfold detectProvider createProviderInfo defaultProviderInfo
    by_cases hv : isOpenAIClientInstance c
    · by_cases hie : ie
      · simp [hv, hie]
      · by_cases hd : detectProviderStrategy c env = Provider.AZURE_OPENAI
        · simp [hv, hie, hd]
        · simp [hv, hie, hd]
    · simp [hv]
  · intro c env
    unfold detectProvider
    by_cases hv : isOpenAIClientInstance c <;> simp [hv]
  · intro c env hv
    unfold detectProvider
    simp [hv]
  · intro s rest c env herr
    show (match s.detect c env with
          | Except.ok true => Provider.AZURE_OPENAI
          | Except.ok false => detectGo rest c env
          | Except.error _ => detectGo rest c env) = detectGo rest c env
    rw [herr]

/-- C10 — witness: the invariant instantiated at a concrete Azure-shaped
client; the error default at a concrete invalid client; strategy-throw
isolation at a concrete throwing strategy. -/
theorem detectProvider_total_and_invariant_witness :
    (((detectProvider ⟨some "AzureOpenAI", some "https://x.azure.com", true,
          true, false⟩ ⟨none, none, none⟩ false).isAzure = true ↔
      (detectProvider ⟨some "AzureOpenAI", some "https://x.azure.com", true,
          true, false⟩ ⟨none, none, none⟩ false).provider =
        Provider.AZURE_OPENAI) ∧
     ((detectProvider ⟨some "AzureOpenAI", some "https://x.azure.com", true,
          true, false⟩ ⟨none, none, none⟩ false).azureConfig.isSome = true →
      (detectProvider ⟨some "AzureOpenAI", some "https://x.azure.com", true,
          true, false⟩ ⟨none, none, none⟩ false).isAzure = true)) ∧
    detectProvider ⟨none, none, false, false, false⟩ ⟨none, none, none⟩ false =
      defaultProviderInfo ∧
    detectGo [⟨50, fun _ _ => Except.error ()⟩] ⟨none, some "u", true, true,
        false⟩ ⟨none, none, none⟩ =
      detectGo [] ⟨none, some "u", true, true, false⟩ ⟨none, none, none⟩ :=
  ⟨detectProvider_total_and_invariant.1
      ⟨some "AzureOpenAI", some "https://x.azure.com", true, true, false⟩
      ⟨none, none, none⟩ false,
   detectProvider_total_and_invariant.2.2.1
      ⟨none, none, false, false, false⟩ ⟨none, none, none⟩ (by decide),
   detectProvider_total_and_invariant.2.2.2
      ⟨50, fun _ _ => Except.error ()⟩ []
      ⟨none, some "u", true, true, false⟩ ⟨none, none, none⟩ rfl⟩

/-- Unfolding helper: `trackUsageAsync` with no metering failure always
ships exactly one payload (the mock response always carries a usage
object, so the build step cannot fail). -/
theorem trackUsageAsync_ok_length (d : TrackingData) :
    (trackUsageAsync d MeterFail.ok).length = 1 := by
  simp [trackUsageAsync, sendReveniumMetrics, buildPayload, trackMockResponse,
    trackMockRequest]

/-- C4: patching is idempotent on instance identity — a second
`patchOpenAIInstance` call on the same instance is a no-op, after two calls
each present capability carries exactly one interception layer, and a single
valid non-streaming chat call through the twice-patched instance produces
exactly one metering event. -/
theorem patchOpenAIInstance_idempotent_spec :
    (∀ (env : EnvVars) (s : PatchState),
      patchOpenAIInstance env (patchOpenAIInstance env s) =
        patchOpenAIInstance env s) ∧
    (∀ (env : EnvVars) (s : PatchState),
      s.inPatchedSet = false → s.chatLayers = 0 → s.embLayers = 0 →
      s.respLayers = 0 → isOpenAIClientInstance s.client = true →
      (patchOpenAIInstance env (patchOpenAIInstance env s)).chatLayers =
          (if s.client.hasChat then 1 else 0) ∧
      (patchOpenAIInstance env (patchOpenAIInstance env s)).embLayers =
          (if s.client.hasEmbeddings then 1 else 0) ∧
      (patchOpenAIInstance env (patchOpenAIInstance env s)).respLayers =
          (if s.client.hasResponses then 1 else 0)) ∧
    (∀ (env : EnvVars) (s : PatchState) (resp : OpenAIChatResponse)
        (u : RespUsage) (md : Option String) (t0 t1 : Nat),
      s.inPatchedSet = false → s.chatLayers = 0 →
      isOpenAIClientInstance s.client = true → s.client.hasChat = true →
      resp.usage = some u → isOpenAIChatResponse resp = true →
      meteringEventsPerChatCall
        (patchOpenAIInstance env (patchOpenAIInstance env s))
        (Except.ok resp) md t0 t1 MeterFail.ok = 1) := by
  have hidem : ∀ (env : EnvVars) (s : PatchState),
      patchOpenAIInstance env (patchOpenAIInstance env s) =
        patchOpenAIInstance env s := by
    intro env s
    by_cases hp : s.inPatchedSet
    · simp [patchOpenAIInstance, hp]
    · by_cases hv : isOpenAIClientInstance s.client
      · simp [patchOpenAIInstance, patchInstance, hp, hv]
      · simp [patchOpenAIInstance, patchInstance, hp, hv]
  have hlayers : ∀ (env : EnvVars) (s : PatchState),
      s.inPatchedSet = false → isOpenAIClientInstance s.client = true →
      patchOpenAIInstance env s =
        { s with
            providerEntry := some (detectProvider s.client env false)
            chatLayers := s.chatLayers + (if s.client.hasChat then 1 else 0)
            embLayers := s.embLayers + (if s.client.hasEmbeddings then 1 else 0)
            respLayers := s.respLayers + (if s.client.hasResponses then 1 else 0)
            inPatchedSet := true } := by
    intro env s hp hv
    simp [patchOpenAIInstance, patchInstance, hp, hv]
  refine ⟨hidem, ?_, ?_⟩
  · intro env s hp hc he hr hv
    rw [hidem, hlayers env s hp hv]
    simp [hc, he, hr]
  · intro env s resp u md t0 t1 hp hc hv hchat hu hvalid
    rw [hidem, hlayers env s hp hv]
    have hone :
        (handleNonStreamingRequest (Except.ok resp) md t0 t1
          (some (detectProvider s.client env false)) MeterFail.ok).2.length
          = 1 := by
      simp [handleNonStreamingRequest, hu, hvalid, trackUsageAsync_ok_length]
    simp [meteringEventsPerChatCall, hone, hc, hchat]

/-- C4 — witness: the patching theorem applied to a fresh, valid client
instance with all three capabilities, and a concrete valid chat response. -/
theorem patchOpenAIInstance_idempotent_spec_witness :
    (patchOpenAIInstance ⟨none, none, none⟩
        (patchOpenAIInstance ⟨none, none, none⟩
          ⟨⟨some "OpenAI", some "https://api.openai.com/v1", true, true, true⟩,
           0, 0, 0, false, none⟩)).chatLayers =
      (if (⟨⟨some "OpenAI", some "https://api.openai.com/v1", true, true,
          true⟩, 0, 0, 0, false, none⟩ : PatchState).client.hasChat then 1
       else 0) ∧
    meteringEventsPerChatCall
        (patchOpenAIInstance ⟨none, none, none⟩
          (patchOpenAIInstance ⟨none, none, none⟩
            ⟨⟨some "OpenAI", some "https://api.openai.com/v1", true, true,
              true⟩, 0, 0, 0, false, none⟩))
        (Except.ok ⟨some "id-1", "gpt-4o", some ⟨10, some 15, 25, none, none⟩,
          [⟨some "stop"⟩]⟩) none 0 5 MeterFail.ok = 1 :=
  ⟨(patchOpenAIInstance_idempotent_spec.2.1 ⟨none, none, none⟩
      ⟨⟨some "OpenAI", some "https://api.openai.com/v1", true, true, true⟩,
       0, 0, 0, false, none⟩ rfl rfl rfl rfl (by decide)).1,
   patchOpenAIInstance_idempotent_spec.2.2 ⟨none, none, none⟩
      ⟨⟨some "OpenAI", some "https://api.openai.com/v1", true, true, true⟩,
       0, 0, 0, false, none⟩
      ⟨some "id-1", "gpt-4o", some ⟨10, some 15, 25, none, none⟩,
        [⟨some "stop"⟩]⟩
      ⟨10, some 15, 25, none, none⟩ none 0 5 rfl rfl (by decide) rfl rfl
      (by decide)⟩

/-- C2: no metering build or delivery failure ever propagates to the caller —
the caller-visible outcome of a non-streaming request is identical for every
metering behaviour, a successful wrapped call always returns exactly the
original response, a rejected wrapped call always surfaces a rejection, and
both build and delivery failures are caught and logged inside the tracking
layer. -/
theorem metering_failures_never_propagate :
    (∀ (call : Except String OpenAIChatResponse) (md : Option String)
        (t0 t1 : Nat) (pi : Option ProviderInfo) (mf : MeterFail),
      (handleNonStreamingRequest call md t0 t1 pi mf).1 =
        (handleNonStreamingRequest call md t0 t1 pi MeterFail.ok).1) ∧
    (∀ (resp : OpenAIChatResponse) (md : Option String) (t0 t1 : Nat)
        (pi : Option ProviderInfo) (mf : MeterFail),
      (handleNonStreamingRequest (Except.ok resp) md t0 t1 pi mf).1 =
        Except.ok resp) ∧
    (∀ (e : String) (md : Option String) (t0 t1 : Nat)
        (pi : Option ProviderInfo) (mf : MeterFail),
      (handleNonStreamingRequest (Except.error e) md t0 t1 pi mf).1 =
        Except.error (transformChatError e (t1 - t0))) ∧
    (∀ (d : TrackingData) (st t : Nat),
      (sendReveniumMetrics (trackMockResponse d) (trackMockRequest d) st t
        d.providerInfo MeterFail.sendCrash).2.isSome = true) ∧
    (∀ (d : TrackingData) (st t : Nat),
      (sendReveniumMetrics (trackMockResponse d) (trackMockRequest d) st t
        d.providerInfo MeterFail.buildCrash).2.isSome = true) := by
  have hok : ∀ (resp : OpenAIChatResponse) (md : Option String) (t0 t1 : Nat)
      (pi : Option ProviderInfo) (mf : MeterFail),
      (handleNonStreamingRequest (Except.ok resp) md t0 t1 pi mf).1 =
        Except.ok resp := by
    intro resp md t0 t1 pi mf
    cases hu : resp.usage with
    | none => simp [handleNonStreamingRequest, hu]
    | some u =>
        by_cases hv : isOpenAIChatResponse resp <;>
          simp [handleNonStreamingRequest, hu, hv]
  refine ⟨?_, hok, ?_, ?_, ?_⟩
  · intro call md t0 t1 pi mf
    cases call with
    | error e => rfl
    | ok resp => rw [hok, hok]
  · intro e md t0 t1 pi mf
    rfl
  · intro d st t
    simp [sendReveniumMetrics, buildPayload, trackMockResponse,
      trackMockRequest]
  · intro d st t
    simp [sendReveniumMetrics]

/-- C9 — counterexample.  A streaming request whose original call rejects
with the network-shaped message `"connection timeout"` (it matches the
`"timeout"` network pattern) reaches the caller as the unchanged plain
error, not as the typed network error the claim requires for every request. -/
theorem streaming_network_error_not_typed :
    classifyErrorIsNetwork "connection timeout" = true ∧
    handleStreamingRequestResult (α := Unit)
        (Except.error "connection timeout") =
      Except.error (ThrownError.plain "connection timeout") ∧
    ThrownError.plain "connection timeout" ≠
      ThrownError.NetworkError "connection timeout" 5 :=
  ⟨by decide, rfl, by decide⟩

/-- C9 — amended claim: every error raised by the original wrapped call is
re-thrown to the caller and never suppressed.  In the non-streaming chat
handler, network-shaped errors are re-thrown as a typed `NetworkError`
carrying the classification and the elapsed duration and all other errors
reach the caller unchanged; the streaming (and embeddings) handlers re-throw
every error unchanged, without the typed-network wrapper. -/
theorem upstream_errors_rethrown_spec :
    (∀ (e : String) (md : Option String) (t0 t1 : Nat)
        (pi : Option ProviderInfo) (mf : MeterFail),
      (handleNonStreamingRequest (Except.error e) md t0 t1 pi mf).1 =
        Except.error (transformChatError e (t1 - t0)) ∧
      (classifyErrorIsNetwork e = true →
        (handleNonStreamingRequest (Except.error e) md t0 t1 pi mf).1 =
          Except.error (ThrownError.NetworkError e (t1 - t0))) ∧
      (classifyErrorIsNetwork e = false →
        (handleNonStreamingRequest (Except.error e) md t0 t1 pi mf).1 =
          Except.error (ThrownError.plain e))) ∧
    (∀ (α : Type) (e : String),
      handleStreamingRequestResult (α := α) (Except.error e) =
        Except.error (ThrownError.plain e)) ∧
    (∀ (α : Type) (a : α),
      handleStreamingRequestResult (Except.ok a) = Except.ok a) := by
  refine ⟨?_, fun α e => rfl, fun α a => rfl⟩
  intro e md t0 t1 pi mf
  refine ⟨rfl, ?_, ?_⟩
  · intro hn
    show Except.error (transformChatError e (t1 - t0)) = _
    rw [transformChatError, hn]
    rfl
  · intro hn
    show Except.error (transformChatError e (t1 - t0)) = _
    rw [transformChatError, hn]
    rfl

/-- C9 — witness: the amended theorem applied to a network-shaped error and
to a configuration-shaped error at concrete timestamps. -/
theorem upstream_errors_rethrown_spec_witness :
    classifyErrorIsNetwork "ECONNRESET by peer" = true ∧
    (handleNonStreamingRequest (Except.error "ECONNRESET by peer") none 0 7
        none MeterFail.ok).1 =
      Except.error (ThrownError.NetworkError "ECONNRESET by peer" 7) ∧
    classifyErrorIsNetwork "invalid api key" = false ∧
    (handleNonStreamingRequest (Except.error "invalid api key") none 0 7
        none MeterFail.ok).1 =
      Except.error (ThrownError.plain "invalid api key") :=
  ⟨by decide,
   (upstream_errors_rethrown_spec.1 "ECONNRESET by peer" none 0 7 none
      MeterFail.ok).2.1 (by decide),
   by decide,
   (upstream_errors_rethrown_spec.1 "invalid api key" none 0 7 none
      MeterFail.ok).2.2 (by decide)⟩

/-- C3 — counterexample.  For a streaming request with no caller-supplied
`stream_options`, the parameters handed to the original method gain
`stream_options = { include_usage: true }`, so they are not equal to the
caller parameters with only `usageMetadata` removed. -/
theorem forwardedChatParams_adds_stream_options :
    forwardedChatParams
        ⟨"gpt-4o", ["hi"], some true, none, some "meta", []⟩ ≠
      { (⟨"gpt-4o", ["hi"], some true, none, some "meta", []⟩ :
          OpenAIChatRequest) with usageMetadata := none } := by
  decide

/-- C3 — amended claim: `usageMetadata` is never forwarded to the wrapped
API; a non-streaming request is delegated with exactly the caller parameters
minus `usageMetadata`; a streaming request is additionally delegated with
`stream_options` defaulted to `{ include_usage: true }` (caller-supplied
`stream_options` keys take precedence), with every other field unchanged. -/
theorem forwardedChatParams_spec :
    (∀ p : OpenAIChatRequest, (forwardedChatParams p).usageMetadata = none) ∧
    (∀ p : OpenAIChatRequest, p.stream.getD false = false →
      forwardedChatParams p = { p with usageMetadata := none }) ∧
    (∀ p : OpenAIChatRequest, p.stream.getD false = true →
      forwardedChatParams p =
        enhanceStreamParams { p with usageMetadata := none } ∧
      (forwardedChatParams p).model = p.model ∧
      (forwardedChatParams p).messages = p.messages ∧
      (forwardedChatParams p).stream = p.stream ∧
      (forwardedChatParams p).extra = p.extra ∧
      (forwardedChatParams p).stream_options = some
        ⟨some ((p.stream_options.bind StreamOptionsM.include_usage).getD true),
         (p.stream_options.map StreamOptionsM.extra).getD []⟩) := by
  refine ⟨?_, ?_, ?_⟩
  · intro p
    by_cases hs : p.stream.getD false <;>
      simp [forwardedChatParams, extractMetadata, enhanceStreamParams, hs]
  · intro p hs
    simp [forwardedChatParams, extractMetadata, hs]
  · intro p hs
    refine ⟨?_, ?_, ?_, ?_, ?_, ?_⟩ <;>
      simp [forwardedChatParams, extractMetadata, enhanceStreamParams, hs]

/-- C3 — witness: the amended forwarding theorem applied to a concrete
non-streaming request and a concrete streaming request. -/
theorem forwardedChatParams_spec_witness :
    forwardedChatParams ⟨"gpt-4o", ["hi"], none, none, some "meta", []⟩ =
      { (⟨"gpt-4o", ["hi"], none, none, some "meta", []⟩ :
          OpenAIChatRequest) with usageMetadata := none } ∧
    forwardedChatParams
        ⟨"gpt-4o", ["hi"], some true, some ⟨some false, [("k", "v")]⟩,
          some "meta", []⟩ =
      enhanceStreamParams
        { (⟨"gpt-4o", ["hi"], some true, some ⟨some false, [("k", "v")]⟩,
            some "meta", []⟩ : OpenAIChatRequest) with usageMetadata := none } :=
  ⟨forwardedChatParams_spec.2.1
      ⟨"gpt-4o", ["hi"], none, none, some "meta", []⟩ rfl,
   (forwardedChatParams_spec.2.2
      ⟨"gpt-4o", ["hi"], some true, some ⟨some false, [("k", "v")]⟩,
        some "meta", []⟩ rfl).1⟩

/-- C6 — counterexample.  For an embedding payload — an operation type to
which completion output, reasoning and caching do not apply (the builder's
own comment reads "Embeddings don't support reasoning or caching") — the
builder emits `outputTokenCount = 0` and `reasoningTokenCount` absent
(`undefined`), not the inapplicable marker `null` the claim requires. -/
theorem buildPayload_embed_inapplicable_not_null :
    (buildPayload OperationType.EMBED
        ⟨none, "text-embedding-3-small", some ⟨8, none, 8, none, none⟩, []⟩
        ⟨"text-embedding-3-small", [], none, none, none, []⟩ 0 3 none).map
        ReveniumPayload.outputTokenCount = Except.ok (TokenCount.val 0) ∧
    (buildPayload OperationType.EMBED
        ⟨none, "text-embedding-3-small", some ⟨8, none, 8, none, none⟩, []⟩
        ⟨"text-embedding-3-small", [], none, none, none, []⟩ 0 3 none).map
        ReveniumPayload.reasoningTokenCount = Except.ok TokenCount.undef ∧
    TokenCount.val 0 ≠ TokenCount.null ∧
    TokenCount.undef ≠ TokenCount.null :=
  ⟨rfl, rfl, by decide, by decide⟩

/-- C6 — amended claim: `null` and absent remain distinguishable states of
every token-count slot all the way to the wire payload, but the builders do
not use them uniformly: image and audio payloads carry `null` for their
inapplicable input/output/total token counts (and absent reasoning/cache
slots); chat payloads carry a number for reported counts and absent — never
`null` — for counts the provider did not report; embedding payloads carry
`outputTokenCount = 0` and absent reasoning/cache slots even though those
concepts do not apply to embeddings. -/
theorem tokenCount_null_vs_undef_spec :
    (∀ (m : Option String) (s t : Nat) (pi : Option ProviderInfo),
      (buildImagePayload m s t pi).inputTokenCount = TokenCount.null ∧
      (buildImagePayload m s t pi).outputTokenCount = TokenCount.null ∧
      (buildImagePayload m s t pi).totalTokenCount = TokenCount.null ∧
      (buildImagePayload m s t pi).reasoningTokenCount = TokenCount.undef ∧
      (buildImagePayload m s t pi).cacheReadTokenCount = TokenCount.undef) ∧
    (∀ (m : Option String) (s t : Nat) (pi : Option ProviderInfo),
      (buildAudioPayload m s t pi).inputTokenCount = TokenCount.null ∧
      (buildAudioPayload m s t pi).outputTokenCount = TokenCount.null ∧
      (buildAudioPayload m s t pi).totalTokenCount = TokenCount.null ∧
      (buildAudioPayload m s t pi).reasoningTokenCount = TokenCount.undef) ∧
    (∀ (resp : OpenAIChatResponse) (req : OpenAIChatRequest) (s t : Nat)
        (pi : Option ProviderInfo) (u : RespUsage) (p : ReveniumPayload),
      resp.usage = some u →
      buildPayload OperationType.CHAT resp req s t pi = Except.ok p →
      p.reasoningTokenCount = optTok u.reasoning_tokens ∧
      p.cacheReadTokenCount = optTok u.cached_tokens ∧
      p.cacheCreationTokenCount = TokenCount.undef ∧
      (u.reasoning_tokens = none → p.reasoningTokenCount = TokenCount.undef)) ∧
    (∀ (resp : OpenAIChatResponse) (req : OpenAIChatRequest) (s t : Nat)
        (pi : Option ProviderInfo) (u : RespUsage) (p : ReveniumPayload),
      resp.usage = some u →
      buildPayload OperationType.EMBED resp req s t pi = Except.ok p →
      p.inputTokenCount = TokenCount.val u.prompt_tokens ∧
      p.outputTokenCount = TokenCount.val 0 ∧
      p.reasoningTokenCount = TokenCount.undef ∧
      p.cacheReadTokenCount = TokenCount.undef) ∧
    (TokenCount.null ≠ TokenCount.undef ∧
      ∀ n : Nat,
        TokenCount.val n ≠ TokenCount.null ∧
        TokenCount.val n ≠ TokenCount.undef) := by
  refine ⟨?_, ?_, ?_, ?_, by decide, ?_⟩
  · intro m s t pi
    exact ⟨rfl, rfl, rfl, rfl, rfl⟩
  · intro m s t pi
    exact ⟨rfl, rfl, rfl, rfl⟩
  · intro resp req s t pi u p hu hp
    rw [buildPayload.eq_def, hu] at hp
    simp at hp
    subst hp
    exact ⟨rfl, rfl, rfl, fun hr => by simp [optTok, hr]⟩
  · intro resp req s t pi u p hu hp
    rw [buildPayload.eq_def, hu] at hp
    simp at hp
    subst hp
    exact ⟨rfl, rfl, rfl, rfl⟩
  · intro n
    exact ⟨fun h => TokenCount.noConfusion h, fun h => TokenCount.noConfusion h⟩

/-- C6 — witness: the amended token-state theorem instantiated at concrete
image and chat (with unreported reasoning tokens) payloads. -/
theorem tokenCount_null_vs_undef_spec_witness :
    ((buildImagePayload (some "dall-e-3") 0 4 none).inputTokenCount =
        TokenCount.null ∧
      (buildImagePayload (some "dall-e-3") 0 4 none).outputTokenCount =
        TokenCount.null ∧
      (buildImagePayload (some "dall-e-3") 0 4 none).totalTokenCount =
        TokenCount.null ∧
      (buildImagePayload (some "dall-e-3") 0 4 none).reasoningTokenCount =
        TokenCount.undef ∧
      (buildImagePayload (some "dall-e-3") 0 4 none).cacheReadTokenCount =
        TokenCount.undef) ∧
    (buildPayload OperationType.CHAT
        ⟨some "id", "gpt-4o", some ⟨3, some 4, 7, none, none⟩, [⟨some "stop"⟩]⟩
        ⟨"gpt-4o", [], none, none, none, []⟩ 0 2 none).map
        ReveniumPayload.reasoningTokenCount = Except.ok TokenCount.undef :=
  ⟨tokenCount_null_vs_undef_spec.1 (some "dall-e-3") 0 4 none,
   by
    have h := (tokenCount_null_vs_undef_spec.2.2.1
      ⟨some "id", "gpt-4o", some ⟨3, some 4, 7, none, none⟩, [⟨some "stop"⟩]⟩
      ⟨"gpt-4o", [], none, none, none, []⟩ 0 2 none
      ⟨3, some 4, 7, none, none⟩ _ rfl rfl).2.2.2 rfl
    rw [show buildPayload OperationType.CHAT
        ⟨some "id", "gpt-4o", some ⟨3, some 4, 7, none, none⟩, [⟨some "stop"⟩]⟩
        ⟨"gpt-4o", [], none, none, none, []⟩ 0 2 none =
        Except.ok _ from rfl]
    rw [Except.map, h]⟩

/-- Unfolding helper: the exact payload `trackUsageAsync` ships when
metering succeeds, field by field. -/
theorem trackUsageAsync_ok_fields (d : TrackingData) :
    ∃ p, trackUsageAsync d MeterFail.ok = [p] ∧
      p.inputTokenCount = TokenCount.val d.promptTokens ∧
      p.outputTokenCount = TokenCount.val d.completionTokens ∧
      p.totalTokenCount = TokenCount.val d.totalTokens ∧
      p.stopReason = mapStopReason d.finishReason ∧
      p.isStreamed = d.isStreamed.getD false :=
  ⟨_, rfl, rfl, rfl, rfl, rfl, rfl⟩

/-- C5: every successful non-streaming chat call whose response carries a
usage object (and passes the chat-response type guard) ships exactly one
Metering Payload whose token counts equal the response's reported usage
exactly; in particular the spec's example response with usage 10/15/25 and
finish reason `"stop"` yields a payload with `inputTokenCount = 10`,
`outputTokenCount = 15`, `totalTokenCount = 25`, `stopReason` mapped from
`"stop"`, and `isStreamed = false`, while the response itself is returned to
the caller unchanged. -/
theorem nonstreaming_payload_matches_usage :
    (∀ (resp : OpenAIChatResponse) (md : Option String) (t0 t1 : Nat)
        (pi : Option ProviderInfo) (u : RespUsage),
      resp.usage = some u → resp.id.isSome = true →
      u.completion_tokens.isSome = true →
      ∃ p, (handleNonStreamingRequest (Except.ok resp) md t0 t1 pi
          MeterFail.ok).2 = [p] ∧
        p.inputTokenCount = TokenCount.val u.prompt_tokens ∧
        p.outputTokenCount = TokenCount.val (u.completion_tokens.getD 0) ∧
        p.totalTokenCount = TokenCount.val u.total_tokens ∧
        p.stopReason =
          mapStopReason
            (orNull ((resp.choices.head?).bind Choice.finish_reason)) ∧
        p.isStreamed = false) ∧
    ((handleNonStreamingRequest
        (Except.ok ⟨some "chatcmpl-1", "gpt-4o-mini",
          some ⟨10, some 15, 25, none, none⟩, [⟨some "stop"⟩]⟩)
        none 0 5 none MeterFail.ok).1 =
      Except.ok ⟨some "chatcmpl-1", "gpt-4o-mini",
        some ⟨10, some 15, 25, none, none⟩, [⟨some "stop"⟩]⟩ ∧
     ∃ p, (handleNonStreamingRequest
        (Except.ok ⟨some "chatcmpl-1", "gpt-4o-mini",
          some ⟨10, some 15, 25, none, none⟩, [⟨some "stop"⟩]⟩)
        none 0 5 none MeterFail.ok).2 = [p] ∧
       p.inputTokenCount = TokenCount.val 10 ∧
       p.outputTokenCount = TokenCount.val 15 ∧
       p.totalTokenCount = TokenCount.val 25 ∧
       p.stopReason = mapStopReason (some "stop") ∧
       p.isStreamed = false) := by
  constructor
  · intro resp md t0 t1 pi u hu hid hct
    have hv : isOpenAIChatResponse resp = true := by
      simp [isOpenAIChatResponse, hu, hid, hct]
    have hh : (handleNonStreamingRequest (Except.ok resp) md t0 t1 pi
        MeterFail.ok).2 =
        trackUsageAsync
          { requestId := resp.id.getD ""
            model := resp.model
            promptTokens := u.prompt_tokens
            completionTokens := u.completion_tokens.getD 0
            totalTokens := u.total_tokens
            reasoningTokens := u.reasoning_tokens
            cachedTokens := u.cached_tokens
            duration := t1 - t0
            finishReason :=
              orNull ((resp.choices.head?).bind Choice.finish_reason)
            usageMetadata := md
            isStreamed := some false
            timeToFirstToken := none
            providerInfo := pi
            responseContent := none } MeterFail.ok := by
      simp [handleNonStreamingRequest, hu, hv]
    obtain ⟨p, hp, h1, h2, h3, h4, h5⟩ := trackUsageAsync_ok_fields
      { requestId := resp.id.getD ""
        model := resp.model
        promptTokens := u.prompt_tokens
        completionTokens := u.completion_tokens.getD 0
        totalTokens := u.total_tokens
        reasoningTokens := u.reasoning_tokens
        cachedTokens := u.cached_tokens
        duration := t1 - t0
        finishReason := orNull ((resp.choices.head?).bind Choice.finish_reason)
        usageMetadata := md
        isStreamed := some false
        timeToFirstToken := none
        providerInfo := pi
        responseContent := none }
    exact ⟨p, hh.trans hp, h1, h2, h3, h4, h5⟩
  · exact ⟨rfl, _, rfl, rfl, rfl, rfl, rfl, rfl⟩

/-- C5 — witness: the universal part applied to the spec's example
response. -/
theorem nonstreaming_payload_matches_usage_witness :
    (handleNonStreamingRequest
        (Except.ok ⟨some "chatcmpl-1", "gpt-4o-mini",
          some ⟨10, some 15, 25, none, none⟩, [⟨some "stop"⟩]⟩)
        none 0 5 none MeterFail.ok).2.map ReveniumPayload.inputTokenCount =
      [TokenCount.val 10] ∧
    (handleNonStreamingRequest
        (Except.ok ⟨some "chatcmpl-1", "gpt-4o-mini",
          some ⟨10, some 15, 25, none, none⟩, [⟨some "stop"⟩]⟩)
        none 0 5 none MeterFail.ok).2.map ReveniumPayload.outputTokenCount =
      [TokenCount.val 15] ∧
    (handleNonStreamingRequest
        (Except.ok ⟨some "chatcmpl-1", "gpt-4o-mini",
          some ⟨10, some 15, 25, none, none⟩, [⟨some "stop"⟩]⟩)
        none 0 5 none MeterFail.ok).2.map ReveniumPayload.totalTokenCount =
      [TokenCount.val 25] ∧
    (handleNonStreamingRequest
        (Except.ok ⟨some "chatcmpl-1", "gpt-4o-mini",
          some ⟨10, some 15, 25, none, none⟩, [⟨some "stop"⟩]⟩)
        none 0 5 none MeterFail.ok).2.map ReveniumPayload.isStreamed =
      [false] := by
  obtain ⟨p, hp, h1, h2, h3, h4, h5⟩ := nonstreaming_payload_matches_usage.1
    ⟨some "chatcmpl-1", "gpt-4o-mini", some ⟨10, some 15, 25, none, none⟩,
      [⟨some "stop"⟩]⟩
    none 0 5 none ⟨10, some 15, 25, none, none⟩ rfl rfl rfl
  rw [hp]
  simp [h1, h2, h3, h5]

/-- The terminal finish reason when the consumer drives the stream to its
natural end. -/
def swTailFinish : StreamTail → Option String
  | StreamTail.ends => none
  | StreamTail.raises _ => some "error"

/-- The terminal finish reason of a `StreamingWrapper` run: `"cancelled"`
when the consumer abandons while chunks are still pending (or exactly at the
last yield), otherwise the tail outcome. -/
def swExpectedFinish (chunks : List SChunk) (tail : StreamTail)
    (abandon : Option Nat) : Option String :=
  match abandon with
  | some k => if k ≤ chunks.length then some "cancelled" else swTailFinish tail
  | none => swTailFinish tail

/-- Core invariant of the `StreamingWrapper` generator: once started, every
run fires exactly one terminal tracking event, whose finish reason is
determined by how the run ends. -/
theorem swRun_finish (cap : Bool) (maxSize : Nat) (model : String)
    (md : Option String) (pi : Option ProviderInfo) (dur : Nat) :
    ∀ (chunks : List SChunk) (st : SWState) (tail : StreamTail)
      (abandon : Option Nat),
      (swRun cap maxSize model md pi dur st chunks tail abandon).map
        TrackingData.finishReason = [swExpectedFinish chunks tail abandon] := by
  intro chunks
  induction chunks with
  | nil =>
      rintro st tail (_ | (_ | n))
      · cases tail <;>
          simp [swRun, swExpectedFinish, swTailFinish, buildTrackingPayload]
      · simp [swRun, swExpectedFinish, buildTrackingPayload]
      · cases tail <;>
          simp [swRun, swExpectedFinish, swTailFinish, buildTrackingPayload]
  | cons c cs ih =>
      rintro st tail (_ | (_ | n))
      · simp [swRun, ih, swExpectedFinish]
      · simp [swRun, swExpectedFinish, buildTrackingPayload]
      · simp [swRun, ih, swExpectedFinish, Nat.succ_le_succ_iff]

/-- A present accumulator survives any chunk; a valid chunk creates one. -/
theorem ctsStep_isSome (acc : Option (String × String × RespUsage))
    (c : RawChunk) :
    (acc.isSome = true → (ctsStep acc c).isSome = true) ∧
    (isStreamChunk c = true → (ctsStep acc c).isSome = true) := by
  by_cases hc : isStreamChunk c
  · cases acc <;> cases hu : c.usage <;> simp [ctsStep, hc, hu]
  · cases acc <;> simp [ctsStep, hc]

/-- `createTrackingStreamWrapper` fires exactly one event on a normal
completion once the accumulator is (or will become) populated. -/
theorem ctsRun_ends_populated (md : Option String) (pi : Option ProviderInfo)
    (dur : Nat) :
    ∀ (chunks : List RawChunk) (acc : Option (String × String × RespUsage)),
      (acc.isSome || chunks.any isStreamChunk) = true →
      (ctsRun md pi dur acc chunks StreamTail.ends none).length = 1 := by
  intro chunks
  induction chunks with
  | nil =>
      intro acc hacc
      rcases acc with _ | ⟨i, mo, u⟩
      · simp at hacc
      · simp [ctsRun]
  | cons c cs ih =>
      intro acc hacc
      have hstep : ((ctsStep acc c).isSome || cs.any isStreamChunk) = true := by
        rcases (Bool.or_eq_true _ _).mp hacc with h | h
        · exact (Bool.or_eq_true _ _).mpr (Or.inl ((ctsStep_isSome acc c).1 h))
        · rw [List.any_cons] at h
          rcases (Bool.or_eq_true _ _).mp h with h2 | h2
          · exact (Bool.or_eq_true _ _).mpr
              (Or.inl ((ctsStep_isSome acc c).2 h2))
          · exact (Bool.or_eq_true _ _).mpr (Or.inr h2)
      simpa [ctsRun] using ih (ctsStep acc c) hstep

/-- `createTrackingStreamWrapper` fires nothing when the stream raises. -/
theorem ctsRun_raises (md : Option String) (pi : Option ProviderInfo)
    (dur : Nat) :
    ∀ (chunks : List RawChunk) (acc : Option (String × String × RespUsage))
      (e : String),
      ctsRun md pi dur acc chunks (StreamTail.raises e) none = [] := by
  intro chunks
  induction chunks with
  | nil => intro acc e; simp [ctsRun]
  | cons c cs ih => intro acc e; simpa [ctsRun] using ih (ctsStep acc c) e

/-- `createTrackingStreamWrapper` fires nothing when the consumer abandons
while chunks are still pending. -/
theorem ctsRun_abandoned (md : Option String) (pi : Option ProviderInfo)
    (dur : Nat) :
    ∀ (chunks : List RawChunk) (acc : Option (String × String × RespUsage))
      (tail : StreamTail) (k : Nat), k ≤ chunks.length →
      ctsRun md pi dur acc chunks tail (some k) = [] := by
  intro chunks
  induction chunks with
  | nil =>
      intro acc tail k hk
      have hk0 : k = 0 := Nat.le_zero.mp hk
      subst hk0
      simp [ctsRun]
  | cons c cs ih =>
      intro acc tail k hk
      match k with
      | 0 => simp [ctsRun]
      | k + 1 =>
          have hk' : k ≤ cs.length := by simpa using hk
          simpa [ctsRun] using ih (ctsStep acc c) tail k hk'

/-- C1 — counterexample.  A streaming call routed through the patch path's
`createTrackingStreamWrapper` that raises mid-stream ships zero terminal
Metering Payloads (the `catch` re-throws without tracking), contradicting
"exactly one … never zero" for an errored stream. -/
theorem createTrackingStreamWrapper_error_ships_nothing :
    runCreateTrackingStreamWrapper none none 7
        [⟨some "id1", some "gpt-4o", some ⟨1, some 2, 3, none, none⟩⟩]
        (StreamTail.raises "boom") none = [] ∧
    (runCreateTrackingStreamWrapper none none 7
        [⟨some "id1", some "gpt-4o", some ⟨1, some 2, 3, none, none⟩⟩]
        (StreamTail.raises "boom") none).length ≠ 1 := by
  constructor
  · rfl
  · decide

/-- C1 — amended claim: the class-based `StreamingWrapper` satisfies the
invariant — for every started consumption (normal completion, mid-stream
error, or abandonment after at least one pull) it fires exactly one terminal
metering event, with the terminal finish reason determined by the exit path.
The patch-based `createTrackingStreamWrapper`, however, fires exactly one
event only when the stream completes normally and contained at least one
valid chunk; it fires zero events on a mid-stream error and zero on early
abandonment. -/
theorem streaming_terminal_event_spec :
    (∀ (cap : Bool) (maxSize : Nat) (model : String) (md : Option String)
        (pi : Option ProviderInfo) (dur : Nat) (rid : String)
        (chunks : List SChunk) (tail : StreamTail) (n : Option Nat),
      n ≠ some 0 →
      (runStreamingWrapper cap maxSize model md pi dur rid chunks tail n).map
          TrackingData.finishReason = [swExpectedFinish chunks tail n] ∧
      (runStreamingWrapper cap maxSize model md pi dur rid chunks tail
          n).length = 1) ∧
    (∀ (md : Option String) (pi : Option ProviderInfo) (dur : Nat)
        (chunks : List RawChunk),
      chunks.any isStreamChunk = true →
      (runCreateTrackingStreamWrapper md pi dur chunks StreamTail.ends
          none).length = 1) ∧
    (∀ (md : Option String) (pi : Option ProviderInfo) (dur : Nat)
        (chunks : List RawChunk) (e : String),
      runCreateTrackingStreamWrapper md pi dur chunks (StreamTail.raises e)
          none = []) ∧
    (∀ (md : Option String) (pi : Option ProviderInfo) (dur : Nat)
        (chunks : List RawChunk) (tail : StreamTail) (k : Nat),
      k ≤ chunks.length →
      runCreateTrackingStreamWrapper md pi dur chunks tail (some k) = []) := by
  refine ⟨?_, ?_, ?_, ?_⟩
  · intro cap maxSize model md pi dur rid chunks tail n hn
    have hrun : runStreamingWrapper cap maxSize model md pi dur rid chunks
        tail n =
        swRun cap maxSize model md pi dur (swInit rid) chunks tail n := by
      rcases n with _ | (_ | k)
      · rfl
      · exact absurd rfl hn
      · rfl
    rw [hrun]
    have hmap := swRun_finish cap maxSize model md pi dur chunks (swInit rid)
      tail n
    refine ⟨hmap, ?_⟩
    have := congrArg List.length hmap
    simpa using this
  · intro md pi dur chunks hany
    exact ctsRun_ends_populated md pi dur chunks none (by simp [hany])
  · intro md pi dur chunks e
    exact ctsRun_raises md pi dur chunks none e
  · intro md pi dur chunks tail k hk
    exact ctsRun_abandoned md pi dur chunks none tail k hk

/-- C1 — witness: the streaming invariant applied to concrete runs — a
normal completion, a mid-stream error and an abandonment after one chunk for
`StreamingWrapper`, and a normally-completed single-valid-chunk stream for
`createTrackingStreamWrapper`. -/
theorem streaming_terminal_event_spec_witness :
    (runStreamingWrapper true 100 "gpt-4o" none none 9 "rid"
        [⟨some "c1", some "hi".toList, some ⟨1, some 2, 3, none, none⟩⟩]
        StreamTail.ends none).length = 1 ∧
    (runStreamingWrapper true 100 "gpt-4o" none none 9 "rid"
        [⟨some "c1", some "hi".toList, some ⟨1, some 2, 3, none, none⟩⟩]
        (StreamTail.raises "boom") none).map TrackingData.finishReason =
      [swExpectedFinish
        [⟨some "c1", some "hi".toList, some ⟨1, some 2, 3, none, none⟩⟩]
        (StreamTail.raises "boom") none] ∧
    (runStreamingWrapper true 100 "gpt-4o" none none 9 "rid"
        [⟨some "c1", some "hi".toList, some ⟨1, some 2, 3, none, none⟩⟩]
        StreamTail.ends (some 1)).map TrackingData.finishReason =
      [swExpectedFinish
        [⟨some "c1", some "hi".toList, some ⟨1, some 2, 3, none, none⟩⟩]
        StreamTail.ends (some 1)] ∧
    (runCreateTrackingStreamWrapper none none 9
        [⟨some "id1", some "gpt-4o", some ⟨1, some 2, 3, none, none⟩⟩]
        StreamTail.ends none).length = 1 ∧
    runCreateTrackingStreamWrapper none none 9
        [⟨some "id1", some "gpt-4o", some ⟨1, some 2, 3, none, none⟩⟩]
        StreamTail.ends (some 1) = [] :=
  ⟨(streaming_terminal_event_spec.1 true 100 "gpt-4o" none none 9 "rid"
      [⟨some "c1", some "hi".toList, some ⟨1, some 2, 3, none, none⟩⟩]
      StreamTail.ends none (by decide)).2,
   (streaming_terminal_event_spec.1 true 100 "gpt-4o" none none 9 "rid"
      [⟨some "c1", some "hi".toList, some ⟨1, some 2, 3, none, none⟩⟩]
      (StreamTail.raises "boom") none (by decide)).1,
   (streaming_terminal_event_spec.1 true 100 "gpt-4o" none none 9 "rid"
      [⟨some "c1", some "hi".toList, some ⟨1, some 2, 3, none, none⟩⟩]
      StreamTail.ends (some 1) (by decide)).1,
   streaming_terminal_event_spec.2.1 none none 9
      [⟨some "id1", some "gpt-4o", some ⟨1, some 2, 3, none, none⟩⟩]
      (by decide),
   streaming_terminal_event_spec.2.2.2 none none 9
      [⟨some "id1", some "gpt-4o", some ⟨1, some 2, 3, none, none⟩⟩]
      StreamTail.ends 1 (by decide)⟩
